import Mathlib

/-!
Verification development for the real-time connection and fan-out subsystem
of the Servihub-Chat backend (src/backend/src/websocket/WebSocketManager.ts).

The manager keeps two mutable structures: a connection registry
(`connections : Map<string, WebSocketConnection>`) and a subscription index
(`conversationSubscriptions : Map<string, Set<string>>`, conversationId to a
set of userIds).  We embed JavaScript `Map` as an association list with
first-occurrence lookup and `Set` as an insertion-ordered duplicate-free
list.  Handlers become pure functions from manager state to manager state
plus a trace of observable effects (frames sent, backbone publishes,
persistence calls, socket terminations).
-/

namespace ServihubChat

/-- JavaScript `Map.get`: value at the first entry with the given key. -/
def mapGet {α β : Type} [DecidableEq α] (m : List (α × β)) (k : α) : Option β :=
  match m with
  | [] => none
  | (k2, v) :: rest => if k = k2 then some v else mapGet rest k

/-- JavaScript `Map.set`: replace the value at the first entry with the given
key, or append a new entry. -/
def mapSet {α β : Type} [DecidableEq α] (m : List (α × β)) (k : α) (v : β) :
    List (α × β) :=
  match m with
  | [] => [(k, v)]
  | (k2, v2) :: rest =>
    if k = k2 then (k2, v) :: rest else (k2, v2) :: mapSet rest k v

/-- JavaScript `Map.delete`: remove the entry with the given key (on maps with
duplicate-free keys, removing every match coincides with removing the one). -/
def mapDelete {α β : Type} [DecidableEq α] (m : List (α × β)) (k : α) :
    List (α × β) :=
  m.filter (fun p => p.1 ≠ k)

/-- JavaScript `Map.has`. -/
def mapHas {α β : Type} [DecidableEq α] (m : List (α × β)) (k : α) : Bool :=
  (mapGet m k).isSome

/-- JavaScript `Set.add`: no-op when the element is present. -/
def setAdd {α : Type} [DecidableEq α] (s : List α) (x : α) : List α :=
  if x ∈ s then s else s ++ [x]

/-- JavaScript `Set.delete`. -/
def setDelete {α : Type} [DecidableEq α] (s : List α) (x : α) : List α :=
  s.filter (fun y => y ≠ x)

/-! ## Data model (WebSocketManager.ts lines 13-63, PubSubService.ts lines 124-144) -/

/-- The `WebSocket.readyState` values of the `ws` library. -/
inductive ReadyState
  | CONNECTING
  | OPEN
  | CLOSING
  | CLOSED
deriving DecidableEq, Repr

/-- Authenticated identity attached to a connection (lines 50-54);
`role` is the string CUSTOMER or AGENT. -/
structure AuthenticatedUser where
  userId : String
  email : String
  role : String
deriving DecidableEq, Repr

/-- Per-connection record (lines 57-63); the socket is represented by its
ready state, timestamps by naturals. -/
structure WebSocketConnection where
  socket : ReadyState
  user : AuthenticatedUser
  conversationIds : List String
  lastSeen : Nat
  isAlive : Bool
deriving DecidableEq, Repr

/-- Inbound client frame after JSON parsing (lines 31-37).  The `type` field
is kept as the raw string the switch statement compares against. -/
structure ClientMessage where
  type : String
  conversationId : Option String := none
  body : Option String := none
  contentType : Option String := none
deriving DecidableEq, Repr

/-- Raw inbound socket data: either bytes that fail `JSON.parse`, or a parsed
`ClientMessage`. -/
inductive Inbound
  | malformed
  | frame (message : ClientMessage)
deriving DecidableEq, Repr

/-- The `MessageEvent` published on a conversation channel
(PubSubService.ts lines 124-130). -/
structure MessageEvent where
  conversationId : String
  senderId : String
  body : String
  timestamp : Nat
  contentType : String
deriving DecidableEq, Repr

/-- The `TypingEvent` (PubSubService.ts lines 133-137). -/
structure TypingEvent where
  conversationId : String
  userId : String
  isTyping : Bool
deriving DecidableEq, Repr

/-- The `PresenceEvent` (PubSubService.ts lines 140-144); `status` is the string
online or offline. -/
structure PresenceEvent where
  userId : String
  status : String
  lastSeen : Nat
deriving DecidableEq, Repr

/-- Canonical stored chat message returned by the persistence gateway
(`MessageService.createMessage`, an external collaborator). -/
structure StoredMessage where
  id : String
  conversationId : String
  senderId : String
  senderRole : String
  contentType : String
  body : String
deriving DecidableEq, Repr

/-- Payload carried in the `message` or `data` field of a server frame. -/
inductive Payload
  | empty
  | str (s : String)
  | storedMsg (m : StoredMessage)
  | messageEvt (e : MessageEvent)
  | typingEvt (e : TypingEvent)
  | presenceEvt (e : PresenceEvent)
  | userInfo (u : AuthenticatedUser)
deriving DecidableEq, Repr

/-- Outbound server frame (lines 40-47). -/
structure ServerMessage where
  type : String
  message : Payload := Payload.empty
  data : Payload := Payload.empty
  timestamp : Nat
deriving DecidableEq, Repr

/-- External persistence gateway (ConversationService / MessageService).
Both calls may throw, modelled by `Except Unit`. -/
structure Gateway where
  isUserParticipant : String → String → Except Unit Bool
  createMessage : String → String → String → String → String → Except Unit StoredMessage

/-- Observable effects of a handler run. -/
inductive Eff
  | send (connectionId : String) (msg : ServerMessage)
  | publishConv (conversationId : String) (e : MessageEvent)
  | publishTyping (e : TypingEvent)
  | publishPresence (e : PresenceEvent)
  | persist (m : StoredMessage)
  | terminate (connectionId : String)
  | ping (connectionId : String)
  | subscribeBackbone (conversationId : String)
deriving DecidableEq, Repr

/-- Mutable state of the `WebSocketManager` class (lines 66-70):
the connection registry, the subscription index, and the backbone flag. -/
structure WebSocketManager where
  connections : List (String × WebSocketConnection)
  conversationSubscriptions : List (String × List String)
  isRedisConnected : Bool
deriving DecidableEq, Repr

/-- Manager state right after construction. -/
def initManager (redis : Bool) : WebSocketManager :=
  { connections := [], conversationSubscriptions := [], isRedisConnected := redis }

/-! ## Operations (WebSocketManager.ts lines 148-503) -/

/-- JavaScript truthiness test used on optional string fields
(`!message.conversationId` is true for a missing field and for `""`). -/
def isBlank (s : Option String) : Bool :=
  match s with
  | none => true
  | some v => v = ""

/-- The `x || "TEXT"` on an optional string field. -/
def orText (s : Option String) : String :=
  match s with
  | none => "TEXT"
  | some v => if v = "" then "TEXT" else v

/-- Error frame with the given text (the code always builds these inline). -/
def errorFrame (text : String) (now : Nat) : ServerMessage :=
  { type := "error", message := Payload.str text, timestamp := now }

/-- The `sendToClient` (lines 423-427): emit a send effect only when the socket
is open.  The connection identifier names the target socket in the trace. -/
def sendToClient (socket : ReadyState) (connectionId : String)
    (message : ServerMessage) : List Eff :=
  if socket = ReadyState.OPEN then [Eff.send connectionId message] else []

/-- The `broadcastToConversation` (lines 393-405): returns early when the
subscription index has no entry, otherwise delivers to every registered
connection that is subscribed to the conversation, is not owned by the
excluded user, and has an open socket. -/
def broadcastToConversation (mgr : WebSocketManager) (conversationId : String)
    (message : ServerMessage) (excludeUserId : Option String) : List Eff :=
  match mapGet mgr.conversationSubscriptions conversationId with
  | none => []
  | some _participants =>
    (mgr.connections.filter (fun p =>
        p.2.conversationIds.contains conversationId
        && (match excludeUserId with
            | none => true
            | some u => p.2.user.userId ≠ u)
        && p.2.socket = ReadyState.OPEN)).map
      (fun p => Eff.send p.1 message)

/-- The `broadcastPresenceUpdate` (lines 408-420): presence goes to every open
connection with no conversation filter and no exclusion. -/
def broadcastPresenceUpdate (mgr : WebSocketManager) (presenceEvent : PresenceEvent)
    (now : Nat) : List Eff :=
  (mgr.connections.filter (fun p => p.2.socket = ReadyState.OPEN)).map
    (fun p => Eff.send p.1
      { type := "presence_update", data := Payload.presenceEvt presenceEvent,
        timestamp := now })

/-- The `updateUserPresence` (lines 374-390): publish on the backbone when
connected, otherwise broadcast locally. -/
def updateUserPresence (mgr : WebSocketManager) (userId : String) (status : String)
    (now : Nat) : List Eff :=
  let presenceEvent : PresenceEvent := { userId := userId, status := status, lastSeen := now }
  if mgr.isRedisConnected then [Eff.publishPresence presenceEvent]
  else broadcastPresenceUpdate mgr presenceEvent now

/-- The subscription-index update inlined at lines 350-353: create the entry
when absent, then add the userId to the member set.  This is the
`subscribe(userId, conversationId)` operation of the Subscription Index. -/
def subscribeIndex (index : List (String × List String)) (conversationId : String)
    (userId : String) : List (String × List String) :=
  let index1 := if mapHas index conversationId then index
    else mapSet index conversationId []
  mapSet index1 conversationId
    (setAdd ((mapGet index1 conversationId).getD []) userId)

/-- The `subscribeToUserConversations` (lines 339-371).  The gateway result
(`conversationService.findByUserId`) is passed in as the list of conversation
ids.  For each conversation the connection record and the index are updated
and, when the backbone is connected, a backbone subscription is registered. -/
def subscribeToUserConversations (mgr : WebSocketManager) (connectionId : String)
    (userId : String) (conversations : List String) : WebSocketManager × List Eff :=
  match mapGet mgr.connections connectionId with
  | none => (mgr, [])
  | some connection =>
    let step := fun (acc : List String × List (String × List String) × List Eff)
        (conversationId : String) =>
      (setAdd acc.1 conversationId,
       subscribeIndex acc.2.1 conversationId userId,
       acc.2.2 ++ (if mgr.isRedisConnected then [Eff.subscribeBackbone conversationId] else []))
    let res := conversations.foldl step
      (connection.conversationIds, mgr.conversationSubscriptions, [])
    ({ mgr with
        connections := mapSet mgr.connections connectionId
          { connection with conversationIds := res.1 },
        conversationSubscriptions := res.2.1 },
     res.2.2)

/-- Connection identifier chosen at admission (line 150):
`userId + "_" + Date.now()`. -/
def connectionId (userId : String) (now : Nat) : String :=
  userId ++ "_" ++ toString now

/-- The `handleConnection` (lines 149-195): register the connection under the
derived identifier, send the welcome frame, subscribe the user to the given
conversations, and publish presence. -/
def handleConnection (mgr : WebSocketManager) (socket : ReadyState)
    (user : AuthenticatedUser) (conversations : List String) (now : Nat) :
    WebSocketManager × List Eff :=
  let cid := connectionId user.userId now
  let connection : WebSocketConnection :=
    { socket := socket, user := user, conversationIds := [],
      lastSeen := now, isAlive := true }
  let mgr1 := { mgr with connections := mapSet mgr.connections cid connection }
  let welcome := sendToClient socket cid
    { type := "welcome", message := Payload.str ("Welcome " ++ user.email ++ "!"),
      data := Payload.userInfo user, timestamp := now }
  let sub := subscribeToUserConversations mgr1 cid user.userId conversations
  (sub.1, welcome ++ sub.2 ++ updateUserPresence sub.1 user.userId "online" now)

/-- The `handleChatMessage` (lines 248-310): validate fields, check participation
through the gateway, persist, acknowledge with `message_sent`, and publish a
`MessageReceived` event when the backbone is connected.  A gateway throw is
caught and answered with the generic failure frame.  The manager state is
never mutated here. -/
def handleChatMessage (gw : Gateway) (mgr : WebSocketManager)
    (cid : String) (connection : WebSocketConnection) (message : ClientMessage)
    (now : Nat) : List Eff :=
  if isBlank message.conversationId || isBlank message.body then
    sendToClient connection.socket cid (errorFrame "Missing conversationId or body" now)
  else
    let convId := message.conversationId.getD ""
    let body := message.body.getD ""
    match gw.isUserParticipant convId connection.user.userId with
    | Except.error _ =>
      sendToClient connection.socket cid (errorFrame "Failed to send message" now)
    | Except.ok false =>
      sendToClient connection.socket cid
        (errorFrame "You are not a participant in this conversation" now)
    | Except.ok true =>
      match gw.createMessage convId connection.user.userId connection.user.role
          (orText message.contentType) body with
      | Except.error _ =>
        sendToClient connection.socket cid (errorFrame "Failed to send message" now)
      | Except.ok newMessage =>
        Eff.persist newMessage
          :: sendToClient connection.socket cid
              { type := "message_sent", message := Payload.storedMsg newMessage,
                timestamp := now }
          ++ (if mgr.isRedisConnected then
                [Eff.publishConv convId
                  { conversationId := convId, senderId := connection.user.userId,
                    body := body, timestamp := now,
                    contentType := orText message.contentType }]
              else [])

/-- The `handleTypingIndicator` (lines 313-336): publish on the backbone when
connected, otherwise fall back to a direct local broadcast excluding the
sender. -/
def handleTypingIndicator (mgr : WebSocketManager)
    (connection : WebSocketConnection) (message : ClientMessage) (isTyping : Bool)
    (now : Nat) : List Eff :=
  if isBlank message.conversationId then []
  else
    let convId := message.conversationId.getD ""
    let typingEvent : TypingEvent :=
      { conversationId := convId, userId := connection.user.userId, isTyping := isTyping }
    if mgr.isRedisConnected then [Eff.publishTyping typingEvent]
    else broadcastToConversation mgr convId
      { type := "typing_indicator", data := Payload.typingEvt typingEvent,
        timestamp := now }
      (some connection.user.userId)

/-- The `handleMessage` (lines 198-245): dispatch a parsed frame by its type
string; on a parse failure answer with the invalid-format error frame and
leave the state untouched (the last-seen update at line 235 sits inside the
`try` block after the switch, so it runs only for parsed frames). -/
def handleMessage (gw : Gateway) (mgr : WebSocketManager) (cid : String)
    (data : Inbound) (now : Nat) : WebSocketManager × List Eff :=
  match mapGet mgr.connections cid with
  | none => (mgr, [])
  | some connection =>
    match data with
    | Inbound.malformed =>
      (mgr, sendToClient connection.socket cid (errorFrame "Invalid message format" now))
    | Inbound.frame message =>
      let effs :=
        if message.type = "chat_message" then
          handleChatMessage gw mgr cid connection message now
        else if message.type = "typing_start" then
          handleTypingIndicator mgr connection message true now
        else if message.type = "typing_stop" then
          handleTypingIndicator mgr connection message false now
        else if message.type = "ping" then
          sendToClient connection.socket cid { type := "pong", timestamp := now }
        else
          sendToClient connection.socket cid (errorFrame "Unknown message type" now)
      let connection1 := { connection with lastSeen := now }
      ({ mgr with connections := mapSet mgr.connections cid connection1 }, effs)

/-- The socket `pong` listener (lines 188-194): mark the connection alive and
refresh its last-seen timestamp. -/
def handlePong (mgr : WebSocketManager) (cid : String) (now : Nat) : WebSocketManager :=
  match mapGet mgr.connections cid with
  | none => mgr
  | some connection =>
    let connection1 := { connection with isAlive := true, lastSeen := now }
    { mgr with connections := mapSet mgr.connections cid connection1 }

/-- The `handleDisconnection` (lines 430-452): publish the offline presence,
remove the userId from the member set of every conversation the connection
subscribed to (deleting entries that become empty), and drop the connection
from the registry.  A missing connection makes the whole call a no-op. -/
def handleDisconnection (mgr : WebSocketManager) (cid : String) (now : Nat) :
    WebSocketManager × List Eff :=
  match mapGet mgr.connections cid with
  | none => (mgr, [])
  | some connection =>
    let presence := updateUserPresence mgr connection.user.userId "offline" now
    let index := connection.conversationIds.foldl
      (fun (acc : List (String × List String)) conversationId =>
        match mapGet acc conversationId with
        | none => acc
        | some participants =>
          let participants1 := setDelete participants connection.user.userId
          if participants1.length = 0 then mapDelete acc conversationId
          else mapSet acc conversationId participants1)
      mgr.conversationSubscriptions
    ({ mgr with
        connections := mapDelete mgr.connections cid,
        conversationSubscriptions := index },
     presence)

/-- One step of the `pingConnections` sweep for a single registry key. -/
def pingStep (now : Nat) (acc : WebSocketManager × List Eff) (cid : String) :
    WebSocketManager × List Eff :=
  match mapGet acc.1.connections cid with
  | none => acc
  | some connection =>
    if !connection.isAlive then
      let connection1 := { connection with socket := ReadyState.CLOSED }
      let mgr1 := { acc.1 with connections := mapSet acc.1.connections cid connection1 }
      let d := handleDisconnection mgr1 cid now
      (d.1, acc.2 ++ [Eff.terminate cid] ++ d.2)
    else
      let connection1 := { connection with isAlive := false }
      ({ acc.1 with connections := mapSet acc.1.connections cid connection1 },
       acc.2 ++ (if connection.socket = ReadyState.OPEN then [Eff.ping cid] else []))

/-- The `pingConnections` (lines 463-477): sweep over the registry; terminate and
evict connections whose liveness flag is down, otherwise lower the flag and
ping.  `terminate` closes the socket before the disconnection handler runs. -/
def pingConnections (mgr : WebSocketManager) (now : Nat) : WebSocketManager × List Eff :=
  (mgr.connections.map Prod.fst).foldl (pingStep now) (mgr, [])

/-- Dispatch of a `MessageReceived` backbone event: the callback registered at
lines 357-363 wraps the event in a `message_received` frame and broadcasts it
to the conversation, excluding the originating sender. -/
def dispatchMessageReceived (mgr : WebSocketManager) (conversationId : String)
    (messageEvent : MessageEvent) (now : Nat) : List Eff :=
  broadcastToConversation mgr conversationId
    { type := "message_received", data := Payload.messageEvt messageEvent,
      timestamp := now }
    (some messageEvent.senderId)

/-! ## Interleaved operation sequences -/

/-- External stimuli the manager reacts to; reachable states are the results
of applying a list of these to the initial state. -/
inductive Op
  | connect (user : AuthenticatedUser) (conversations : List String) (now : Nat)
  | frame (cid : String) (data : Inbound) (now : Nat)
  | pong (cid : String) (now : Nat)
  | disconnect (cid : String) (now : Nat)
  | dispatch (conversationId : String) (e : MessageEvent) (now : Nat)
  | sweep (now : Nat)
deriving DecidableEq, Repr

/-- Apply one stimulus. -/
def applyOp (gw : Gateway) (mgr : WebSocketManager) : Op → WebSocketManager × List Eff
  | Op.connect user conversations now => handleConnection mgr ReadyState.OPEN user conversations now
  | Op.frame cid data now => handleMessage gw mgr cid data now
  | Op.pong cid now => (handlePong mgr cid now, [])
  | Op.disconnect cid now => handleDisconnection mgr cid now
  | Op.dispatch conversationId e now => (mgr, dispatchMessageReceived mgr conversationId e now)
  | Op.sweep now => pingConnections mgr now

/-- Apply a list of stimuli, discarding effects. -/
def execFrom (gw : Gateway) (mgr : WebSocketManager) : List Op → WebSocketManager
  | [] => mgr
  | op :: rest => execFrom gw (applyOp gw mgr op).1 rest

/-- Run a list of stimuli from the initial state. -/
def execOps (gw : Gateway) (redis : Bool) (ops : List Op) : WebSocketManager :=
  execFrom gw (initManager redis) ops

/-- A gateway whose calls never succeed interestingly; used where a sequence
of stimuli contains no chat frames. -/
def trivialGateway : Gateway :=
  { isUserParticipant := fun _ _ => Except.ok true,
    createMessage := fun c s r t b =>
      Except.ok { id := "m", conversationId := c, senderId := s, senderRole := r,
                  contentType := t, body := b } }

/-! ## Association-list map and set lemmas -/

theorem mapGet_mapSet_self {α β : Type} [DecidableEq α] (m : List (α × β)) (k : α) (v : β) :
    mapGet (mapSet m k v) k = some v := by
  induction m with
  | nil => simp [mapGet, mapSet]
  | cons p rest ih =>
    by_cases h : k = p.1
    · simp [mapGet, mapSet, h]
    · simp [mapGet, mapSet, h, ih]

theorem mapGet_mapSet_ne {α β : Type} [DecidableEq α] (m : List (α × β)) (k k2 : α) (v : β)
    (h : k2 ≠ k) : mapGet (mapSet m k v) k2 = mapGet m k2 := by
  induction m with
  | nil => simp [mapGet, mapSet, h]
  | cons p rest ih =>
    by_cases hk : k = p.1
    · subst hk
      simp [mapGet, mapSet, h]
    · by_cases hk2 : k2 = p.1
      · simp [mapGet, mapSet, hk, hk2]
      · simp [mapGet, mapSet, hk, hk2, ih]

theorem mapSet_self {α β : Type} [DecidableEq α] (m : List (α × β)) (k : α) (v : β)
    (h : mapGet m k = some v) : mapSet m k v = m := by
  induction m with
  | nil => simp [mapGet] at h
  | cons p rest ih =>
    obtain ⟨a, b⟩ := p
    by_cases hk : k = a
    · subst hk
      simp [mapGet] at h
      simp [mapSet, h]
    · simp [mapGet, hk] at h
      simp [mapSet, hk, ih h]

theorem mapGet_mapDelete_self {α β : Type} [DecidableEq α] (m : List (α × β)) (k : α) :
    mapGet (mapDelete m k) k = none := by
  induction m with
  | nil => simp [mapGet, mapDelete]
  | cons p rest ih =>
    obtain ⟨a, b⟩ := p
    by_cases h : a = k
    · have h1 : mapDelete ((a, b) :: rest) k = mapDelete rest k := by
        simp [mapDelete, h]
      rw [h1]
      exact ih
    · have h1 : mapDelete ((a, b) :: rest) k = (a, b) :: mapDelete rest k := by
        simp [mapDelete, h]
      have hk : k ≠ a := fun hh => h hh.symm
      rw [h1]
      simp [mapGet, hk]
      exact ih

theorem mapGet_mapDelete_ne {α β : Type} [DecidableEq α] (m : List (α × β)) (k k2 : α)
    (h : k2 ≠ k) : mapGet (mapDelete m k) k2 = mapGet m k2 := by
  induction m with
  | nil => simp [mapGet, mapDelete]
  | cons p rest ih =>
    obtain ⟨a, b⟩ := p
    by_cases hp : a = k
    · subst hp
      have h1 : mapDelete ((a, b) :: rest) a = mapDelete rest a := by
        simp [mapDelete]
      rw [h1]
      have h2 : mapGet ((a, b) :: rest) k2 = mapGet rest k2 := by
        simp [mapGet, h]
      rw [h2]
      exact ih
    · have h1 : mapDelete ((a, b) :: rest) k = (a, b) :: mapDelete rest k := by
        simp [mapDelete, hp]
      rw [h1]
      by_cases hk2 : k2 = a
      · simp [mapGet, hk2]
      · simp [mapGet, hk2]
        exact ih

theorem mapGet_eq_none_iff {α β : Type} [DecidableEq α] (m : List (α × β)) (k : α) :
    mapGet m k = none ↔ k ∉ m.map Prod.fst := by
  induction m with
  | nil => simp [mapGet]
  | cons p rest ih =>
    by_cases h : k = p.1
    · simp [mapGet, h]
    · simp [mapGet, h, ih]

theorem mapGet_mem {α β : Type} [DecidableEq α] (m : List (α × β)) (k : α) (v : β)
    (h : mapGet m k = some v) : (k, v) ∈ m := by
  induction m with
  | nil => simp [mapGet] at h
  | cons p rest ih =>
    by_cases hk : k = p.1
    · subst hk
      simp [mapGet] at h
      subst h
      simp
    · simp [mapGet, hk] at h
      exact List.mem_cons_of_mem _ (ih h)

theorem mem_nodup_mapGet {α β : Type} [DecidableEq α] (m : List (α × β)) (k : α) (v : β)
    (hnd : (m.map Prod.fst).Nodup) (h : (k, v) ∈ m) : mapGet m k = some v := by
  induction m with
  | nil => simp at h
  | cons p rest ih =>
    obtain ⟨a, b⟩ := p
    rw [List.map_cons, List.nodup_cons] at hnd
    rcases List.mem_cons.mp h with h1 | h1
    · cases h1
      simp [mapGet]
    · by_cases hk : k = a
      · subst hk
        exact absurd (List.mem_map.mpr ⟨(k, v), h1, rfl⟩) hnd.1
      · simp [mapGet, hk]
        exact ih hnd.2 h1

theorem mem_setAdd_self {α : Type} [DecidableEq α] (s : List α) (x : α) :
    x ∈ setAdd s x := by
  by_cases h : x ∈ s <;> simp [setAdd, h]

theorem setAdd_of_mem {α : Type} [DecidableEq α] (s : List α) (x : α) (h : x ∈ s) :
    setAdd s x = s := by
  simp [setAdd, h]

/-- Subscribing a user already in the member set leaves the index untouched. -/
theorem subscribeIndex_of_mem (index : List (String × List String))
    (conversationId userId : String) (s : List String)
    (h : mapGet index conversationId = some s) (hu : userId ∈ s) :
    subscribeIndex index conversationId userId = index := by
  unfold subscribeIndex
  simp [mapHas, h, setAdd_of_mem _ _ hu, mapSet_self _ _ _ h]

/-- The member set produced by one subscribe call. -/
theorem subscribeIndex_get (index : List (String × List String))
    (conversationId userId : String) :
    mapGet (subscribeIndex index conversationId userId) conversationId
      = some (setAdd ((mapGet (if mapHas index conversationId then index
          else mapSet index conversationId []) conversationId).getD []) userId) := by
  unfold subscribeIndex
  exact mapGet_mapSet_self _ _ _

/-! ## Claim theorems -/

/-- Claim C8: for every userId, conversationId and Subscription Index state,
performing subscribe(userId, conversationId) twice in a row yields the same
index state as performing it once, and in particular the member-set size is
unchanged by the second call. -/
theorem C8_subscribe_idempotent (index : List (String × List String))
    (conversationId userId : String) :
    subscribeIndex (subscribeIndex index conversationId userId) conversationId userId
        = subscribeIndex index conversationId userId
      ∧ ((mapGet (subscribeIndex (subscribeIndex index conversationId userId)
            conversationId userId) conversationId).getD []).length
        = ((mapGet (subscribeIndex index conversationId userId) conversationId).getD []).length := by
  have h1 := subscribeIndex_get index conversationId userId
  have h2 := subscribeIndex_of_mem _ conversationId userId _ h1 (mem_setAdd_self _ _)
  exact ⟨h2, by rw [h2]⟩

/-- Claim C10: eviction is idempotent at the public interface: running the
disconnection handler on a connectionId it already removed (or that was never
present) is a no-op that leaves the Connection Registry and the Subscription
Index exactly as the first run left them, and produces no effects. -/
theorem C10_eviction_idempotent (mgr : WebSocketManager) (cid : String) (now1 now2 : Nat) :
    handleDisconnection (handleDisconnection mgr cid now1).1 cid now2
      = ((handleDisconnection mgr cid now1).1, []) := by
  cases h : mapGet mgr.connections cid with
  | none =>
    have h1 : handleDisconnection mgr cid now1 = (mgr, []) := by
      simp [handleDisconnection, h]
    rw [h1]
    simp [handleDisconnection, h]
  | some conn =>
    have h2 : mapGet (handleDisconnection mgr cid now1).1.connections cid = none := by
      simp [handleDisconnection, h]
      exact mapGet_mapDelete_self _ _
    generalize hg : (handleDisconnection mgr cid now1).1 = s1 at h2 ⊢
    simp [handleDisconnection, h2]

/-! ## Concrete scenario used by witnesses and counterexamples -/

/-- User A, a customer. -/
def userA : AuthenticatedUser := { userId := "u", email := "u@x", role := "CUSTOMER" }

/-- User B, an agent sharing conversation conv-1 with user A. -/
def userB : AuthenticatedUser := { userId := "b", email := "b@x", role := "AGENT" }

/-- State after admitting one connection each for users A and B, both
subscribed to conv-1, with the backbone connected. -/
def mgrAB : WebSocketManager :=
  execOps trivialGateway true [Op.connect userA ["conv-1"] 0, Op.connect userB ["conv-1"] 1]

/-- The registry record of user A's connection in `mgrAB`. -/
def connA : WebSocketConnection :=
  { socket := ReadyState.OPEN, user := userA, conversationIds := ["conv-1"],
    lastSeen := 0, isAlive := true }

/-- A frame with no conversationId and no body. -/
def emptyChatFrame : ClientMessage := { type := "chat_message" }

/-- A well-formed chat frame for conv-1. -/
def chatHi : ClientMessage :=
  { type := "chat_message", conversationId := some "conv-1", body := some "hi" }

/-- A ping frame. -/
def pingFrame : ClientMessage := { type := "ping" }

/-- A gateway that reports the user is not a participant. -/
def deniedGateway : Gateway :=
  { isUserParticipant := fun _ _ => Except.ok false,
    createMessage := trivialGateway.createMessage }

/-- A gateway whose persistence write fails. -/
def failedWriteGateway : Gateway :=
  { isUserParticipant := fun _ _ => Except.ok true,
    createMessage := fun _ _ _ _ _ => Except.error () }

/-- Claim C5: an inbound frame that is invalid JSON, or a chat_message frame
missing conversationId or body, makes the handler send exactly one error
frame to the sending connection and nothing to any other connection, persist
and publish nothing, and leave the connection registered with its
subscriptions, socket and liveness unchanged (so it keeps processing later
frames); only its last-seen timestamp may move. -/
theorem C5_malformed_frame (gw : Gateway) (mgr : WebSocketManager) (cid : String)
    (conn : WebSocketConnection) (message : ClientMessage) (now : Nat)
    (hconn : mapGet mgr.connections cid = some conn)
    (hopen : conn.socket = ReadyState.OPEN)
    (htype : message.type = "chat_message")
    (hmiss : message.conversationId = none ∨ message.body = none) :
    handleMessage gw mgr cid Inbound.malformed now
        = (mgr, [Eff.send cid (errorFrame "Invalid message format" now)])
      ∧ (handleMessage gw mgr cid (Inbound.frame message) now).2
          = [Eff.send cid (errorFrame "Missing conversationId or body" now)]
      ∧ mapGet (handleMessage gw mgr cid (Inbound.frame message) now).1.connections cid
          = some { conn with lastSeen := now }
      ∧ (handleMessage gw mgr cid (Inbound.frame message) now).1.conversationSubscriptions
          = mgr.conversationSubscriptions := by
  have hblank : (isBlank message.conversationId || isBlank message.body) = true := by
    rcases hmiss with h | h <;> simp [isBlank, h]
  refine ⟨?_, ?_, ?_, ?_⟩
  · simp [handleMessage, hconn, sendToClient, hopen]
  · simp [handleMessage, hconn, htype, handleChatMessage, hblank, sendToClient, hopen]
  · simp [handleMessage, hconn, htype]
    exact mapGet_mapSet_self _ _ _
  · simp [handleMessage, hconn, htype]

/-- Witness for C5 at a concrete reachable state: user A sends raw bytes that
fail to parse, then a chat_message frame with both fields missing. -/
theorem C5_witness :
    handleMessage trivialGateway mgrAB "u_0" Inbound.malformed 5
        = (mgrAB, [Eff.send "u_0" (errorFrame "Invalid message format" 5)])
      ∧ (handleMessage trivialGateway mgrAB "u_0" (Inbound.frame emptyChatFrame) 5).2
          = [Eff.send "u_0" (errorFrame "Missing conversationId or body" 5)]
      ∧ mapGet (handleMessage trivialGateway mgrAB "u_0"
            (Inbound.frame emptyChatFrame) 5).1.connections "u_0"
          = some { connA with lastSeen := 5 }
      ∧ (handleMessage trivialGateway mgrAB "u_0"
            (Inbound.frame emptyChatFrame) 5).1.conversationSubscriptions
          = mgrAB.conversationSubscriptions :=
  C5_malformed_frame trivialGateway mgrAB "u_0" connA emptyChatFrame 5
    (by decide) (by decide) (by decide) (Or.inl (by decide))

/-- Claim C6: a chat_message whose sender the gateway rejects as
not-a-participant yields exactly one error frame naming that cause, with no
persistence, no publish, and the connection stays registered on an open
socket; when the participant check passes but the persistence write fails,
the single error frame carries the distinct internal-failure text and again
nothing is published. -/
theorem C6_gateway_failures (gw : Gateway) (mgr : WebSocketManager) (cid : String)
    (conn : WebSocketConnection) (message : ClientMessage) (convId body : String) (now : Nat)
    (hconn : mapGet mgr.connections cid = some conn)
    (hopen : conn.socket = ReadyState.OPEN)
    (htype : message.type = "chat_message")
    (hcv : message.conversationId = some convId) (hcne : convId ≠ "")
    (hbv : message.body = some body) (hbne : body ≠ "") :
    (gw.isUserParticipant convId conn.user.userId = Except.ok false →
        (handleMessage gw mgr cid (Inbound.frame message) now).2
            = [Eff.send cid (errorFrame "You are not a participant in this conversation" now)]
          ∧ mapGet (handleMessage gw mgr cid (Inbound.frame message) now).1.connections cid
            = some { conn with lastSeen := now })
      ∧ (gw.isUserParticipant convId conn.user.userId = Except.ok true →
          gw.createMessage convId conn.user.userId conn.user.role
              (orText message.contentType) body = Except.error () →
          (handleMessage gw mgr cid (Inbound.frame message) now).2
              = [Eff.send cid (errorFrame "Failed to send message" now)]
            ∧ mapGet (handleMessage gw mgr cid (Inbound.frame message) now).1.connections cid
              = some { conn with lastSeen := now })
      ∧ errorFrame "You are not a participant in this conversation" now
          ≠ errorFrame "Failed to send message" now := by
  have hc2 : isBlank (some convId) = false := by simp [isBlank, hcne]
  have hb2 : isBlank (some body) = false := by simp [isBlank, hbne]
  refine ⟨?_, ?_, ?_⟩
  · intro hpart
    constructor
    · simp [handleMessage, hconn, htype, handleChatMessage, hcv, hbv, hc2, hb2,
            hpart, sendToClient, hopen]
    · simp [handleMessage, hconn, htype]
      exact mapGet_mapSet_self _ _ _
  · intro hpart hwrite
    constructor
    · simp [handleMessage, hconn, htype, handleChatMessage, hcv, hbv, hc2, hb2,
            hpart, hwrite, sendToClient, hopen]
    · simp [handleMessage, hconn, htype]
      exact mapGet_mapSet_self _ _ _
  · simp [errorFrame]

/-- Witness for C6: the same frame from user A answered by a denying gateway
and by a gateway whose write fails. -/
theorem C6_witness :
    (handleMessage deniedGateway mgrAB "u_0" (Inbound.frame chatHi) 5).2
        = [Eff.send "u_0" (errorFrame "You are not a participant in this conversation" 5)]
      ∧ (handleMessage failedWriteGateway mgrAB "u_0" (Inbound.frame chatHi) 5).2
        = [Eff.send "u_0" (errorFrame "Failed to send message" 5)] :=
  ⟨((C6_gateway_failures deniedGateway mgrAB "u_0" connA chatHi "conv-1" "hi" 5
      (by decide) (by decide) (by decide) (by decide) (by decide) (by decide)
      (by decide)).1 rfl).1,
   (((C6_gateway_failures failedWriteGateway mgrAB "u_0" connA chatHi "conv-1" "hi" 5
      (by decide) (by decide) (by decide) (by decide) (by decide) (by decide)
      (by decide)).2).1 rfl rfl).1⟩

/-- Claim C7 as stated: every inbound frame (malformed ones included) and
every heartbeat response leaves the connection with its last-seen timestamp
updated and its liveness flag true. -/
def C7Claim : Prop :=
  (∀ (gw : Gateway) (mgr : WebSocketManager) (cid : String) (conn : WebSocketConnection)
      (d : Inbound) (now : Nat),
    mapGet mgr.connections cid = some conn →
    ∃ conn2, mapGet (handleMessage gw mgr cid d now).1.connections cid = some conn2
      ∧ conn2.lastSeen = now ∧ conn2.isAlive = true)
  ∧ (∀ (mgr : WebSocketManager) (cid : String) (conn : WebSocketConnection) (now : Nat),
    mapGet mgr.connections cid = some conn →
    ∃ conn2, mapGet (handlePong mgr cid now).connections cid = some conn2
      ∧ conn2.lastSeen = now ∧ conn2.isAlive = true)

/-- The reachable state in which user A's only connection has already missed
one heartbeat sweep: its liveness flag is down. -/
def mgrStale : WebSocketManager :=
  (pingConnections (execOps trivialGateway true [Op.connect userA ["conv-1"] 0]) 3).1

/-- The registry record of connection u_0 in `mgrStale`. -/
def connStale : WebSocketConnection :=
  { socket := ReadyState.OPEN, user := userA, conversationIds := ["conv-1"],
    lastSeen := 0, isAlive := false }

/-- Counterexample to claim C7: in the reachable state where connection u_0
missed one sweep (liveness flag false), handling a well-formed ping frame
updates last-seen but leaves the liveness flag false — frame handling never
raises the flag, only the pong listener does. -/
theorem C7_counterexample : ¬ C7Claim := by
  intro h
  obtain ⟨conn2, hget, _, hal⟩ :=
    h.1 trivialGateway mgrStale "u_0" connStale (Inbound.frame pingFrame) 9 (by decide)
  have hc : mapGet (handleMessage trivialGateway mgrStale "u_0"
      (Inbound.frame pingFrame) 9).1.connections "u_0"
      = some { connStale with lastSeen := 9 } := by decide
  rw [hc] at hget
  injection hget with h2
  rw [← h2] at hal
  exact absurd hal (by decide)

/-- Claim C7 amended: a frame that parses updates the last-seen timestamp and
leaves the liveness flag (and every other field) unchanged; an invalid-JSON
frame leaves the manager state entirely untouched; only the heartbeat (pong)
listener raises the liveness flag, and it also updates last-seen. -/
theorem C7_amended (gw : Gateway) (mgr : WebSocketManager) (cid : String)
    (conn : WebSocketConnection) (message : ClientMessage) (now : Nat)
    (hconn : mapGet mgr.connections cid = some conn) :
    (handleMessage gw mgr cid Inbound.malformed now).1 = mgr
      ∧ mapGet (handleMessage gw mgr cid (Inbound.frame message) now).1.connections cid
          = some { conn with lastSeen := now }
      ∧ mapGet (handlePong mgr cid now).connections cid
          = some { conn with isAlive := true, lastSeen := now } := by
  refine ⟨?_, ?_, ?_⟩
  · simp [handleMessage, hconn]
  · simp [handleMessage, hconn]
    exact mapGet_mapSet_self _ _ _
  · simp [handlePong, hconn]
    exact mapGet_mapSet_self _ _ _

/-- Witness for the amended C7 at the stale-connection state and a ping
frame. -/
theorem C7_witness :
    (handleMessage trivialGateway mgrStale "u_0" Inbound.malformed 9).1 = mgrStale
      ∧ mapGet (handleMessage trivialGateway mgrStale "u_0"
            (Inbound.frame pingFrame) 9).1.connections "u_0"
          = some { connStale with lastSeen := 9 }
      ∧ mapGet (handlePong mgrStale "u_0" 9).connections "u_0"
          = some { connStale with isAlive := true, lastSeen := 9 } :=
  C7_amended trivialGateway mgrStale "u_0" connStale pingFrame 9 (by decide)

/-- The registry record of user B's connection in `mgrAB`. -/
def connB : WebSocketConnection :=
  { socket := ReadyState.OPEN, user := userB, conversationIds := ["conv-1"],
    lastSeen := 1, isAlive := true }

/-- Reachable state for the multi-tab eviction scenario: user A opens two
connections (u_0 at time 0 and u_1 at time 1), both subscribed to conv-1,
then u_0 disconnects while u_1 stays live. -/
def mgrTwoTabs : WebSocketManager :=
  execOps trivialGateway true
    [Op.connect userA ["conv-1"] 0, Op.connect userA ["conv-1"] 1, Op.disconnect "u_0" 2]

/-- The same scenario just before the disconnection. -/
def mgrTwoTabsBefore : WebSocketManager :=
  execOps trivialGateway true
    [Op.connect userA ["conv-1"] 0, Op.connect userA ["conv-1"] 1]

/-- Claim C2 failing input evaluated: before evicting u_0 the member set of
conv-1 holds userId u; after evicting u_0 the subscription index no longer
has any entry for conv-1, even though connection u_1 of the same user is
still registered, open and subscribed to conv-1.  `handleDisconnection`
deletes the userId from each member set unconditionally, so the
membership-iff-live-subscribed-connection invariant is broken. -/
theorem C2_code_bug_eval :
    mapGet mgrTwoTabsBefore.conversationSubscriptions "conv-1" = some ["u"]
      ∧ mapGet mgrTwoTabs.conversationSubscriptions "conv-1" = none
      ∧ mapGet mgrTwoTabs.connections "u_1"
          = some { socket := ReadyState.OPEN, user := userA,
                   conversationIds := ["conv-1"], lastSeen := 1, isAlive := true } := by
  decide

/-- State reached when the backbone was unreachable at startup: local-only
mode, users A and B both admitted and subscribed to conv-1. -/
def mgrLocalOnly : WebSocketManager :=
  execOps trivialGateway false [Op.connect userA ["conv-1"] 0, Op.connect userB ["conv-1"] 1]

/-- The stored record the trivial gateway returns for the chatHi frame. -/
def storedHi : StoredMessage :=
  { id := "m", conversationId := "conv-1", senderId := "u", senderRole := "CUSTOMER",
    contentType := "TEXT", body := "hi" }

/-- Claim C3 failing input evaluated: in local-only mode user B is live,
open and subscribed to conv-1, yet user A's valid chat_message produces only
the persistence call and the message_sent acknowledgement to A — no
message_received is delivered to B and nothing is published, because
`handleChatMessage` has no local fallback broadcast (unlike the typing and
presence handlers).  With the backbone connected the same frame additionally
publishes the MessageReceived event, which is what normally reaches B. -/
theorem C3_code_bug_eval :
    mapGet mgrLocalOnly.connections "b_1" = some connB
      ∧ (handleMessage trivialGateway mgrLocalOnly "u_0" (Inbound.frame chatHi) 2).2
          = [Eff.persist storedHi,
             Eff.send "u_0" { type := "message_sent",
                              message := Payload.storedMsg storedHi, timestamp := 2 }]
      ∧ (handleMessage trivialGateway mgrAB "u_0" (Inbound.frame chatHi) 2).2
          = [Eff.persist storedHi,
             Eff.send "u_0" { type := "message_sent",
                              message := Payload.storedMsg storedHi, timestamp := 2 },
             Eff.publishConv "conv-1"
               { conversationId := "conv-1", senderId := "u", body := "hi",
                 timestamp := 2, contentType := "TEXT" }] := by
  decide

/-- Two admissions for user A in the same millisecond. -/
def mgrSameMs : WebSocketManager :=
  execOps trivialGateway true [Op.connect userA ["conv-1"] 5, Op.connect userA ["conv-1"] 5]

/-- Claim C9 failing input evaluated: the connection identifier is derived
from the userId and the admission timestamp alone, so two simultaneous
admissions for the same user collide on the same identifier and the second
registry entry overwrites the first — one entry remains where two live
connections were admitted. -/
theorem C9_code_bug_eval :
    connectionId userA.userId 5 = "u_5"
      ∧ mgrSameMs.connections.map Prod.fst = ["u_5"]
      ∧ mgrSameMs.connections.length = 1 := by
  decide

/-- The message_received frame wrapping a backbone event (lines 358-362). -/
def messageReceivedFrame (e : MessageEvent) (now : Nat) : ServerMessage :=
  { type := "message_received", data := Payload.messageEvt e, timestamp := now }

/-- Claim C1 as stated, over all reachable states with the backbone
connected: dispatching a MessageReceived backbone event for conversation X
delivers a message_received frame to every registered connection that is
subscribed to X and open, except connections owned by the originating
sender, which receive nothing. -/
def C1Claim : Prop :=
  ∀ (gw : Gateway) (ops : List Op) (X : String) (e : MessageEvent) (now : Nat),
    (∀ cid conn, mapGet (execOps gw true ops).connections cid = some conn →
        conn.conversationIds.contains X = true →
        conn.socket = ReadyState.OPEN →
        conn.user.userId ≠ e.senderId →
        Eff.send cid (messageReceivedFrame e now)
          ∈ dispatchMessageReceived (execOps gw true ops) X e now)
      ∧ (∀ cid conn, mapGet (execOps gw true ops).connections cid = some conn →
          conn.user.userId = e.senderId →
          ∀ msg, Eff.send cid msg ∉ dispatchMessageReceived (execOps gw true ops) X e now)

/-- A MessageReceived event for conv-1 originating from a user v distinct
from users A and B. -/
def eventFromV : MessageEvent :=
  { conversationId := "conv-1", senderId := "v", body := "hey", timestamp := 2,
    contentType := "TEXT" }

/-- Counterexample to claim C1: in the reachable state `mgrTwoTabs`
(user A evicted one of two tabs), connection u_1 is registered, subscribed to
conv-1, open, and not owned by the sender, yet the dispatch delivers nothing
to it — the eviction emptied and deleted the conv-1 index entry, so
`broadcastToConversation` returns before iterating the registry. -/
theorem C1_counterexample : ¬ C1Claim := by
  intro h
  have h1 := (h trivialGateway
      [Op.connect userA ["conv-1"] 0, Op.connect userA ["conv-1"] 1, Op.disconnect "u_0" 2]
      "conv-1" eventFromV 3).1 "u_1"
      { socket := ReadyState.OPEN, user := userA, conversationIds := ["conv-1"],
        lastSeen := 1, isAlive := true }
      (by decide) (by decide) (by decide) (by decide)
  exact absurd h1 (by decide)

/-- Claim C1 amended: the stated delivery and sender-exclusion hold for every
dispatch in a state whose Subscription Index still has an entry for the
conversation (the registry keys being duplicate-free, as for a JavaScript
Map); without such an entry — reachable via the C2 eviction defect — the
dispatch delivers to no connection at all. -/
theorem C1_amended (s : WebSocketManager) (X : String) (e : MessageEvent) (now : Nat)
    (ps : List String)
    (hnd : (s.connections.map Prod.fst).Nodup)
    (hidx : mapGet s.conversationSubscriptions X = some ps) :
    (∀ cid conn, mapGet s.connections cid = some conn →
        conn.conversationIds.contains X = true →
        conn.socket = ReadyState.OPEN →
        conn.user.userId ≠ e.senderId →
        Eff.send cid (messageReceivedFrame e now) ∈ dispatchMessageReceived s X e now)
      ∧ (∀ cid conn, mapGet s.connections cid = some conn →
          conn.user.userId = e.senderId →
          ∀ msg, Eff.send cid msg ∉ dispatchMessageReceived s X e now) := by
  constructor
  · intro cid conn hget hsub hsock hne
    have hmem : (cid, conn) ∈ s.connections := mapGet_mem _ _ _ hget
    unfold dispatchMessageReceived broadcastToConversation
    rw [hidx]
    apply List.mem_map.mpr
    refine ⟨(cid, conn), ?_, rfl⟩
    apply List.mem_filter.mpr
    refine ⟨hmem, ?_⟩
    have hsub2 : X ∈ conn.conversationIds := by simpa using hsub
    simp [hsub2, hsock, hne, messageReceivedFrame]
  · intro cid conn hget heq msg hmem
    unfold dispatchMessageReceived broadcastToConversation at hmem
    rw [hidx] at hmem
    obtain ⟨p, hp, hpe⟩ := List.mem_map.mp hmem
    obtain ⟨pcid, pconn⟩ := p
    obtain ⟨hpl, hpred⟩ := List.mem_filter.mp hp
    injection hpe with h1 h2
    have h1p : pcid = cid := h1
    subst h1p
    have hpg : mapGet s.connections pcid = some pconn := mem_nodup_mapGet _ _ _ hnd hpl
    rw [hget] at hpg
    injection hpg with h3
    simp at hpred
    have hne2 : pconn.user.userId ≠ e.senderId := by tauto
    exact hne2 (by rw [← h3, heq])

/-- A MessageReceived event for conv-1 originating from user A. -/
def eventFromU : MessageEvent :=
  { conversationId := "conv-1", senderId := "u", body := "hi", timestamp := 2,
    contentType := "TEXT" }

/-- Witness for the amended C1 in the healthy two-user state: user B's
connection receives the message_received frame for user A's event, and user
A's own connection receives nothing. -/
theorem C1_witness :
    Eff.send "b_1" (messageReceivedFrame eventFromU 3)
        ∈ dispatchMessageReceived mgrAB "conv-1" eventFromU 3
      ∧ Eff.send "u_0" (messageReceivedFrame eventFromU 3)
        ∉ dispatchMessageReceived mgrAB "conv-1" eventFromU 3 :=
  ⟨(C1_amended mgrAB "conv-1" eventFromU 3 ["u", "b"] (by decide) (by decide)).1
      "b_1" connB (by decide) (by decide) (by decide) (by decide),
   (C1_amended mgrAB "conv-1" eventFromU 3 ["u", "b"] (by decide) (by decide)).2
      "u_0" connA (by decide) (by decide) (messageReceivedFrame eventFromU 3)⟩

/-! ## Liveness sweep lemmas (claim C4) -/

/-- Presence updates never emit a terminate effect. -/
theorem terminate_not_mem_presence (mgr : WebSocketManager) (u st : String) (now : Nat)
    (c : String) : Eff.terminate c ∉ updateUserPresence mgr u st now := by
  unfold updateUserPresence broadcastPresenceUpdate
  by_cases h : mgr.isRedisConnected <;> simp [h]

/-- A sweep step for a different key does not change what the registry holds
at `c`. -/
theorem pingStep_get_ne (now : Nat) (acc : WebSocketManager × List Eff) (k c : String)
    (h : c ≠ k) :
    mapGet (pingStep now acc k).1.connections c = mapGet acc.1.connections c := by
  unfold pingStep
  cases hk : mapGet acc.1.connections k with
  | none => rfl
  | some conn =>
    by_cases ha : conn.isAlive
    · simp [ha, mapGet_mapSet_ne _ _ _ _ h]
    · simp [ha, handleDisconnection, mapGet_mapSet_self,
            mapGet_mapDelete_ne _ _ _ h, mapGet_mapSet_ne _ _ _ _ h]

/-- A sweep step for a different key neither adds nor removes a terminate
effect for `c`. -/
theorem pingStep_terminate_ne (now : Nat) (acc : WebSocketManager × List Eff) (k c : String)
    (h : c ≠ k) :
    (Eff.terminate c ∈ (pingStep now acc k).2 ↔ Eff.terminate c ∈ acc.2) := by
  unfold pingStep
  cases hk : mapGet acc.1.connections k with
  | none => rfl
  | some conn =>
    by_cases ha : conn.isAlive
    · by_cases hs : conn.socket = ReadyState.OPEN <;> simp [ha, hs]
    · simp [ha, handleDisconnection, mapGet_mapSet_self, h]
      intro hx
      exact absurd hx (terminate_not_mem_presence _ _ _ _ _)

/-- Folding sweep steps over keys that avoid `c` preserves both the registry
entry at `c` and the presence of a terminate effect for `c`. -/
theorem pingFold_absent (now : Nat) :
    ∀ (keys : List String) (acc : WebSocketManager × List Eff) (c : String), c ∉ keys →
      mapGet (keys.foldl (pingStep now) acc).1.connections c = mapGet acc.1.connections c
      ∧ (Eff.terminate c ∈ (keys.foldl (pingStep now) acc).2 ↔ Eff.terminate c ∈ acc.2) := by
  intro keys
  induction keys with
  | nil => intro acc c _; exact ⟨rfl, Iff.rfl⟩
  | cons k rest ih =>
    intro acc c hc
    have hck : c ≠ k := fun hx => hc (hx ▸ List.mem_cons_self k rest)
    have hcr : c ∉ rest := fun hx => hc (List.mem_cons_of_mem k hx)
    have hstep1 := pingStep_get_ne now acc k c hck
    have hstep2 := pingStep_terminate_ne now acc k c hck
    have hrest := ih (pingStep now acc k) c hcr
    rw [List.foldl_cons]
    exact ⟨hrest.1.trans hstep1, hrest.2.trans hstep2⟩

/-- A connection absent from the registry stays absent through a sweep. -/
theorem ping_absent (mgr : WebSocketManager) (now : Nat) (c : String)
    (h : mapGet mgr.connections c = none) :
    mapGet (pingConnections mgr now).1.connections c = none := by
  have hc : c ∉ mgr.connections.map Prod.fst := (mapGet_eq_none_iff _ _).mp h
  have := (pingFold_absent now (mgr.connections.map Prod.fst) (mgr, []) c hc).1
  unfold pingConnections
  rw [this, h]

/-- A registered connection whose liveness flag is up survives the sweep with
the flag lowered and is not terminated. -/
theorem ping_lookup_alive (mgr : WebSocketManager) (now : Nat) (c : String)
    (conn : WebSocketConnection)
    (hnd : (mgr.connections.map Prod.fst).Nodup)
    (h : mapGet mgr.connections c = some conn) (ha : conn.isAlive = true) :
    mapGet (pingConnections mgr now).1.connections c = some { conn with isAlive := false }
      ∧ Eff.terminate c ∉ (pingConnections mgr now).2 := by
  have hcmem : c ∈ mgr.connections.map Prod.fst :=
    List.mem_map.mpr ⟨(c, conn), mapGet_mem _ _ _ h, rfl⟩
  obtain ⟨l1, l2, hsplit⟩ := List.append_of_mem hcmem
  have hnd2 : (l1 ++ c :: l2).Nodup := hsplit ▸ hnd
  rw [List.nodup_append] at hnd2
  have hc1 : c ∉ l1 := fun hm => hnd2.2.2 hm (List.mem_cons_self c l2)
  have hc2 : c ∉ l2 := (List.nodup_cons.mp hnd2.2.1).1
  unfold pingConnections
  rw [hsplit, List.foldl_append, List.foldl_cons]
  obtain ⟨hpres1, hpres2⟩ := pingFold_absent now l1 (mgr, []) c hc1
  have hg1 : mapGet (l1.foldl (pingStep now) (mgr, [])).1.connections c = some conn := by
    rw [hpres1, h]
  have ht1 : Eff.terminate c ∉ (l1.foldl (pingStep now) (mgr, [])).2 := by
    intro hx
    simpa using hpres2.mp hx
  obtain ⟨hga, hta⟩ :=
    pingFold_absent now l2 (pingStep now (l1.foldl (pingStep now) (mgr, [])) c) c hc2
  constructor
  · rw [hga]
    simp [pingStep, hg1, ha]
    exact mapGet_mapSet_self _ _ _
  · intro hx
    have hx2 := hta.mp hx
    by_cases hs : conn.socket = ReadyState.OPEN <;>
      simp [pingStep, hg1, ha, hs] at hx2 <;> exact ht1 hx2

/-- A registered connection whose liveness flag is down is evicted and
terminated by the sweep. -/
theorem ping_lookup_dead (mgr : WebSocketManager) (now : Nat) (c : String)
    (conn : WebSocketConnection)
    (hnd : (mgr.connections.map Prod.fst).Nodup)
    (h : mapGet mgr.connections c = some conn) (ha : conn.isAlive = false) :
    mapGet (pingConnections mgr now).1.connections c = none
      ∧ Eff.terminate c ∈ (pingConnections mgr now).2 := by
  have hcmem : c ∈ mgr.connections.map Prod.fst :=
    List.mem_map.mpr ⟨(c, conn), mapGet_mem _ _ _ h, rfl⟩
  obtain ⟨l1, l2, hsplit⟩ := List.append_of_mem hcmem
  have hnd2 : (l1 ++ c :: l2).Nodup := hsplit ▸ hnd
  rw [List.nodup_append] at hnd2
  have hc1 : c ∉ l1 := fun hm => hnd2.2.2 hm (List.mem_cons_self c l2)
  have hc2 : c ∉ l2 := (List.nodup_cons.mp hnd2.2.1).1
  unfold pingConnections
  rw [hsplit, List.foldl_append, List.foldl_cons]
  obtain ⟨hpres1, _⟩ := pingFold_absent now l1 (mgr, []) c hc1
  have hg1 : mapGet (l1.foldl (pingStep now) (mgr, [])).1.connections c = some conn := by
    rw [hpres1, h]
  obtain ⟨hga, hta⟩ :=
    pingFold_absent now l2 (pingStep now (l1.foldl (pingStep now) (mgr, [])) c) c hc2
  constructor
  · rw [hga]
    simp [pingStep, hg1, ha, handleDisconnection, mapGet_mapSet_self]
    exact mapGet_mapDelete_self _ _
  · apply hta.mpr
    simp [pingStep, hg1, ha, handleDisconnection, mapGet_mapSet_self]

/-- Stimuli that can run between two sweeps without involving connection `c`:
no heartbeat response from `c`, no sweep, no disconnect of `c`, and no
admission that collides with identifier `c`. -/
def untouches (c : String) : Op → Bool
  | Op.connect u _ now => connectionId u.userId now != c
  | Op.frame _ _ _ => true
  | Op.pong cid _ => cid != c
  | Op.disconnect cid _ => cid != c
  | Op.dispatch _ _ _ => true
  | Op.sweep _ => false

/-- What intermediate handling may do to the registry entry of `c`: a missing
entry stays missing, a present entry keeps its liveness flag and socket
(frames may refresh its last-seen timestamp). -/
def preservesConn : Option WebSocketConnection → Option WebSocketConnection → Prop
  | none, o2 => o2 = none
  | some a, o2 => ∃ b, o2 = some b ∧ b.isAlive = a.isAlive ∧ b.socket = a.socket

theorem preservesConn_refl (o : Option WebSocketConnection) : preservesConn o o := by
  cases o with
  | none => rfl
  | some a => exact ⟨a, rfl, rfl, rfl⟩

theorem preservesConn_trans (o1 o2 o3 : Option WebSocketConnection)
    (h1 : preservesConn o1 o2) (h2 : preservesConn o2 o3) : preservesConn o1 o3 := by
  cases o1 with
  | none =>
    cases o2 with
    | none => exact h2
    | some b => exact absurd h1 (by simp [preservesConn])
  | some a =>
    obtain ⟨b, hb, hba, hbs⟩ := h1
    subst hb
    obtain ⟨d, hd, hda, hds⟩ := h2
    exact ⟨d, hd, hda.trans hba, hds.trans hbs⟩

/-- Admitting a connection under a different identifier leaves the registry
entry at `c` unchanged. -/
theorem handleConnection_get_ne (mgr : WebSocketManager) (socket : ReadyState)
    (user : AuthenticatedUser) (conversations : List String) (now : Nat) (c : String)
    (h : connectionId user.userId now ≠ c) :
    mapGet (handleConnection mgr socket user conversations now).1.connections c
      = mapGet mgr.connections c := by
  have hne : c ≠ connectionId user.userId now := fun hx => h hx.symm
  unfold handleConnection subscribeToUserConversations
  simp [mapGet_mapSet_self, mapGet_mapSet_ne _ _ _ _ hne]

/-- One untouched stimulus preserves the registry entry of `c` in the
`preservesConn` sense. -/
theorem applyOp_preserves (gw : Gateway) (mgr : WebSocketManager) (op : Op) (c : String)
    (h : untouches c op = true) :
    preservesConn (mapGet mgr.connections c)
      (mapGet (applyOp gw mgr op).1.connections c) := by
  cases op with
  | connect user conversations now =>
    have hne : connectionId user.userId now ≠ c := by
      simpa [untouches] using h
    have := handleConnection_get_ne mgr ReadyState.OPEN user conversations now c hne
    rw [show (applyOp gw mgr (Op.connect user conversations now)).1
        = (handleConnection mgr ReadyState.OPEN user conversations now).1 from rfl, this]
    exact preservesConn_refl _
  | frame cid d now =>
    show preservesConn _ (mapGet (handleMessage gw mgr cid d now).1.connections c)
    cases hk : mapGet mgr.connections cid with
    | none => simp [handleMessage, hk]; exact preservesConn_refl _
    | some conn =>
      cases d with
      | malformed => simp [handleMessage, hk]; exact preservesConn_refl _
      | frame message =>
        by_cases hc : cid = c
        · subst hc
          rw [hk]
          refine ⟨{ conn with lastSeen := now }, ?_, rfl, rfl⟩
          simp [handleMessage, hk]
          exact mapGet_mapSet_self _ _ _
        · have hne : c ≠ cid := fun hx => hc hx.symm
          have : mapGet (handleMessage gw mgr cid (Inbound.frame message) now).1.connections c
              = mapGet mgr.connections c := by
            simp [handleMessage, hk, mapGet_mapSet_ne _ _ _ _ hne]
          rw [this]
          exact preservesConn_refl _
  | pong cid now =>
    have hne : c ≠ cid := by
      intro hx
      simp [untouches, hx] at h
    show preservesConn _ (mapGet (handlePong mgr cid now).connections c)
    cases hk : mapGet mgr.connections cid with
    | none => simp [handlePong, hk]; exact preservesConn_refl _
    | some conn =>
      have : mapGet (handlePong mgr cid now).connections c = mapGet mgr.connections c := by
        simp [handlePong, hk, mapGet_mapSet_ne _ _ _ _ hne]
      rw [this]
      exact preservesConn_refl _
  | disconnect cid now =>
    have hne : c ≠ cid := by
      intro hx
      simp [untouches, hx] at h
    show preservesConn _ (mapGet (handleDisconnection mgr cid now).1.connections c)
    cases hk : mapGet mgr.connections cid with
    | none => simp [handleDisconnection, hk]; exact preservesConn_refl _
    | some conn =>
      have : mapGet (handleDisconnection mgr cid now).1.connections c
          = mapGet mgr.connections c := by
        simp [handleDisconnection, hk, mapGet_mapDelete_ne _ _ _ hne]
      rw [this]
      exact preservesConn_refl _
  | dispatch conversationId e now => exact preservesConn_refl _
  | sweep now => simp [untouches] at h

/-- A sequence of untouched stimuli preserves the registry entry of `c`. -/
theorem execFrom_preserves (gw : Gateway) :
    ∀ (ops : List Op) (mgr : WebSocketManager) (c : String),
      (∀ op ∈ ops, untouches c op = true) →
      preservesConn (mapGet mgr.connections c)
        (mapGet (execFrom gw mgr ops).connections c) := by
  intro ops
  induction ops with
  | nil => intro mgr c _; exact preservesConn_refl _
  | cons op rest ih =>
    intro mgr c hops
    have h1 := applyOp_preserves gw mgr op c (hops op (List.mem_cons_self op rest))
    have h2 := ih (applyOp gw mgr op).1 c (fun o ho => hops o (List.mem_cons_of_mem op ho))
    exact preservesConn_trans _ _ _ h1 h2

/-- The registry keys are duplicate-free — the standing invariant of a
JavaScript Map. -/
def keysNodup (mgr : WebSocketManager) : Prop :=
  (mgr.connections.map Prod.fst).Nodup

theorem mem_keys_mapSet {α β : Type} [DecidableEq α] (m : List (α × β)) (k x : α) (v : β) :
    x ∈ (mapSet m k v).map Prod.fst ↔ x ∈ m.map Prod.fst ∨ x = k := by
  induction m with
  | nil => simp [mapSet]
  | cons p rest ih =>
    obtain ⟨a, b⟩ := p
    by_cases hk : k = a
    · subst hk
      simp [mapSet]
      tauto
    · simp [mapSet, hk, ih]
      tauto

theorem nodup_mapSet {α β : Type} [DecidableEq α] (m : List (α × β)) (k : α) (v : β)
    (h : (m.map Prod.fst).Nodup) : ((mapSet m k v).map Prod.fst).Nodup := by
  induction m with
  | nil => simp [mapSet]
  | cons p rest ih =>
    obtain ⟨a, b⟩ := p
    rw [List.map_cons, List.nodup_cons] at h
    by_cases hk : k = a
    · subst hk
      rw [show mapSet ((k, b) :: rest) k v = (k, v) :: rest from by simp [mapSet]]
      rw [List.map_cons, List.nodup_cons]
      exact h
    · rw [show mapSet ((a, b) :: rest) k v = (a, b) :: mapSet rest k v from by
        simp [mapSet, hk]]
      rw [List.map_cons, List.nodup_cons]
      refine ⟨?_, ih h.2⟩
      intro hx
      rcases (mem_keys_mapSet rest k a v).mp hx with hx | hx
      · exact h.1 hx
      · exact hk hx.symm

theorem nodup_mapDelete {α β : Type} [DecidableEq α] (m : List (α × β)) (k : α)
    (h : (m.map Prod.fst).Nodup) : ((mapDelete m k).map Prod.fst).Nodup :=
  h.sublist (List.Sublist.map Prod.fst (List.filter_sublist m))

theorem keysNodup_handleConnection (mgr : WebSocketManager) (socket : ReadyState)
    (user : AuthenticatedUser) (conversations : List String) (now : Nat)
    (h : keysNodup mgr) :
    keysNodup (handleConnection mgr socket user conversations now).1 := by
  unfold handleConnection subscribeToUserConversations
  simp [mapGet_mapSet_self]
  exact nodup_mapSet _ _ _ (nodup_mapSet _ _ _ h)

theorem keysNodup_handleMessage (gw : Gateway) (mgr : WebSocketManager) (cid : String)
    (d : Inbound) (now : Nat) (h : keysNodup mgr) :
    keysNodup (handleMessage gw mgr cid d now).1 := by
  unfold handleMessage
  cases hk : mapGet mgr.connections cid with
  | none => exact h
  | some conn =>
    cases d with
    | malformed => exact h
    | frame message => exact nodup_mapSet _ _ _ h

theorem keysNodup_handlePong (mgr : WebSocketManager) (cid : String) (now : Nat)
    (h : keysNodup mgr) : keysNodup (handlePong mgr cid now) := by
  unfold handlePong
  cases hk : mapGet mgr.connections cid with
  | none => exact h
  | some conn => exact nodup_mapSet _ _ _ h

theorem keysNodup_handleDisconnection (mgr : WebSocketManager) (cid : String) (now : Nat)
    (h : keysNodup mgr) : keysNodup (handleDisconnection mgr cid now).1 := by
  unfold handleDisconnection
  cases hk : mapGet mgr.connections cid with
  | none => exact h
  | some conn => exact nodup_mapDelete _ _ h

theorem keysNodup_pingStep (now : Nat) (acc : WebSocketManager × List Eff) (k : String)
    (h : keysNodup acc.1) : keysNodup (pingStep now acc k).1 := by
  unfold pingStep
  cases hk : mapGet acc.1.connections k with
  | none => exact h
  | some conn =>
    by_cases ha : conn.isAlive
    · simp [ha]
      exact nodup_mapSet _ _ _ h
    · simp [ha]
      exact keysNodup_handleDisconnection _ _ _ (nodup_mapSet _ _ _ h)

theorem keysNodup_pingFold (now : Nat) :
    ∀ (keys : List String) (acc : WebSocketManager × List Eff), keysNodup acc.1 →
      keysNodup ((keys.foldl (pingStep now) acc).1) := by
  intro keys
  induction keys with
  | nil => intro acc h; exact h
  | cons k rest ih =>
    intro acc h
    rw [List.foldl_cons]
    exact ih _ (keysNodup_pingStep now acc k h)

theorem keysNodup_pingConnections (mgr : WebSocketManager) (now : Nat)
    (h : keysNodup mgr) : keysNodup (pingConnections mgr now).1 :=
  keysNodup_pingFold now _ (mgr, []) h

theorem keysNodup_applyOp (gw : Gateway) (mgr : WebSocketManager) (op : Op)
    (h : keysNodup mgr) : keysNodup (applyOp gw mgr op).1 := by
  cases op with
  | connect user conversations now => exact keysNodup_handleConnection _ _ _ _ _ h
  | frame cid d now => exact keysNodup_handleMessage _ _ _ _ _ h
  | pong cid now => exact keysNodup_handlePong _ _ _ h
  | disconnect cid now => exact keysNodup_handleDisconnection _ _ _ h
  | dispatch conversationId e now => exact h
  | sweep now => exact keysNodup_pingConnections _ _ h

theorem keysNodup_execFrom (gw : Gateway) :
    ∀ (ops : List Op) (mgr : WebSocketManager), keysNodup mgr →
      keysNodup (execFrom gw mgr ops) := by
  intro ops
  induction ops with
  | nil => intro mgr h; exact h
  | cons op rest ih =>
    intro mgr h
    exact ih _ (keysNodup_applyOp gw mgr op h)

/-- Claim C4: a registered connection from which no heartbeat (pong) response
arrives between two consecutive liveness sweeps (and which is not otherwise
touched: no sweep, no disconnect of it, no colliding admission) is gone from
the registry after the second sweep and its socket was terminated by one of
the two sweeps; conversely, a registered connection whose pong arrives before
the next sweep survives that sweep and is not terminated by it. -/
theorem C4_liveness (gw : Gateway) (mgr : WebSocketManager) (c : String)
    (conn : WebSocketConnection) (now1 now2 now3 : Nat) (ops ops2 : List Op)
    (hnd : (mgr.connections.map Prod.fst).Nodup)
    (hc : mapGet mgr.connections c = some conn)
    (hops : ∀ op ∈ ops, untouches c op = true)
    (hops2 : ∀ op ∈ ops2, untouches c op = true) :
    (mapGet (pingConnections (execFrom gw (pingConnections mgr now1).1 ops)
          now2).1.connections c = none
      ∧ (Eff.terminate c ∈ (pingConnections mgr now1).2
         ∨ Eff.terminate c
             ∈ (pingConnections (execFrom gw (pingConnections mgr now1).1 ops) now2).2))
    ∧ ((mapGet (pingConnections (execFrom gw (handlePong mgr c now2) ops2)
            now3).1.connections c).isSome = true
      ∧ Eff.terminate c
          ∉ (pingConnections (execFrom gw (handlePong mgr c now2) ops2) now3).2) := by
  constructor
  · by_cases ha : conn.isAlive = true
    · obtain ⟨hg1, _⟩ := ping_lookup_alive mgr now1 c conn hnd hc ha
      have hnd1 : keysNodup (pingConnections mgr now1).1 :=
        keysNodup_pingConnections mgr now1 hnd
      have hpres := execFrom_preserves gw ops (pingConnections mgr now1).1 c hops
      rw [hg1] at hpres
      obtain ⟨b, hb, hba, _⟩ := hpres
      have hnd2 : keysNodup (execFrom gw (pingConnections mgr now1).1 ops) :=
        keysNodup_execFrom gw ops _ hnd1
      have hbdead : b.isAlive = false := by simpa using hba
      obtain ⟨hg2, ht2⟩ := ping_lookup_dead _ now2 c b hnd2 hb hbdead
      exact ⟨hg2, Or.inr ht2⟩
    · have ha2 : conn.isAlive = false := by simpa using ha
      obtain ⟨hg1, ht1⟩ := ping_lookup_dead mgr now1 c conn hnd hc ha2
      have hpres := execFrom_preserves gw ops (pingConnections mgr now1).1 c hops
      rw [hg1] at hpres
      have hnone : mapGet (execFrom gw (pingConnections mgr now1).1 ops).connections c
          = none := hpres
      exact ⟨ping_absent _ now2 c hnone, Or.inl ht1⟩
  · have hp : mapGet (handlePong mgr c now2).connections c
        = some { conn with isAlive := true, lastSeen := now2 } := by
      simp [handlePong, hc]
      exact mapGet_mapSet_self _ _ _
    have hndp : keysNodup (handlePong mgr c now2) := keysNodup_handlePong _ _ _ hnd
    have hpres := execFrom_preserves gw ops2 (handlePong mgr c now2) c hops2
    rw [hp] at hpres
    obtain ⟨b, hb, hba, _⟩ := hpres
    have hnd3 : keysNodup (execFrom gw (handlePong mgr c now2) ops2) :=
      keysNodup_execFrom gw ops2 _ hndp
    have hbalive : b.isAlive = true := by simpa using hba
    obtain ⟨hg3, ht3⟩ := ping_lookup_alive _ now3 c b hnd3 hb hbalive
    exact ⟨by rw [hg3]; rfl, ht3⟩

/-- Witness for C4 at the concrete two-user state, with no intermediate
stimuli: connection u_0 misses both sweeps and is evicted and terminated; had
its pong arrived between the sweeps, the next sweep keeps it. -/
theorem C4_witness :
    (mapGet (pingConnections (execFrom trivialGateway (pingConnections mgrAB 10).1 [])
          11).1.connections "u_0" = none
      ∧ (Eff.terminate "u_0" ∈ (pingConnections mgrAB 10).2
         ∨ Eff.terminate "u_0"
             ∈ (pingConnections (execFrom trivialGateway (pingConnections mgrAB 10).1 []) 11).2))
    ∧ ((mapGet (pingConnections (execFrom trivialGateway (handlePong mgrAB "u_0" 11) [])
            12).1.connections "u_0").isSome = true
      ∧ Eff.terminate "u_0"
          ∉ (pingConnections (execFrom trivialGateway (handlePong mgrAB "u_0" 11) []) 12).2) :=
  C4_liveness trivialGateway mgrAB "u_0" connA 10 11 12 [] []
    (by decide) (by decide) (by decide) (by decide)

end ServihubChat
